import Mathlib

/-!
Verification of the cache-disabling static file server (src/server.py).

The program subclasses the standard static-file request handler, overriding
the header-finalization step to append three anti-cache headers, changes the
working directory to the directory containing its own source file, binds a
TCP server on all interfaces at port 8000, prints three status lines, and
serves forever.  We embed that behavior below and settle the spec's claims.
-/

namespace Server

/-- An HTTP header line: a field name and a field value. -/
structure Header where
  name : String
  value : String
deriving DecidableEq, Repr

/-- BaseHTTPRequestHandler.send_header: appends one header line to the
handler's header buffer (the buffer is flushed when headers are finalized). -/
def send_header (buffer : List Header) (name value : String) : List Header :=
  buffer ++ [⟨name, value⟩]

/-- NoCacheHTTPRequestHandler.end_headers (src/server.py lines 11-16): sends
the three anti-cache headers, then delegates to the base class's
end_headers, which terminates and flushes the buffered header block.  The
result is the finalized header block of the response. -/
def end_headers (buffer : List Header) : List Header :=
  send_header
    (send_header
      (send_header buffer "Cache-Control" "no-cache, no-store, must-revalidate")
      "Pragma" "no-cache")
    "Expires" "0"

/-- The three anti-cache headers, in the order the handler sends them. -/
def antiCacheHeaders : List Header :=
  [⟨"Cache-Control", "no-cache, no-store, must-revalidate"⟩,
   ⟨"Pragma", "no-cache"⟩,
   ⟨"Expires", "0"⟩]

/-- A byte sequence (file or body contents). -/
abbrev Bytes := List Nat

/-- The read-only filesystem subtree rooted at the server's directory,
as a finite map from request paths to regular-file contents. -/
abbrev FileSystem := List (String × Bytes)

/-- An HTTP response: status code, finalized header block, and body. -/
structure Response where
  status : Nat
  headerBlock : List Header
  body : Bytes
deriving Repr

/-- Modelled from the spec: the header lines the generic static-file handler
(SimpleHTTPRequestHandler, an external collaborator whose code is not in this
repository) buffers for a successful file response — content type and
content length — before the block is finalized. -/
def baseSuccessHeaders (bytes : Bytes) : List Header :=
  [⟨"Content-type", "application/octet-stream"⟩,
   ⟨"Content-Length", toString bytes.length⟩]

/-- Modelled from the spec: the header lines the generic static-file handler
buffers for an error response before the block is finalized. -/
def baseErrorHeaders : List Header :=
  [⟨"Content-Type", "text/html;charset=utf-8"⟩,
   ⟨"Connection", "close"⟩]

/-- Modelled from the spec: SimpleHTTPRequestHandler's GET dispatch, the
external collaborator to which file resolution is delegated.  An existing
regular file yields status 200 with that file's bytes unmodified; a path
with no corresponding file yields status 404.  In both cases the header
block is finalized through the overriding handler's end_headers, which is
where the anti-cache headers are injected. -/
def do_GET (fs : FileSystem) (path : String) : Response :=
  match fs.lookup path with
  | some bytes =>
      { status := 200
        headerBlock := end_headers (baseSuccessHeaders bytes)
        body := bytes }
  | none =>
      { status := 404
        headerBlock := end_headers baseErrorHeaders
        body := [] }

/-- A Python path value: whether it is absolute, and its components. -/
structure PyPath where
  absolute : Bool
  components : List String
deriving DecidableEq, Repr

/-- os.path.abspath: an absolute path is returned as is; a relative path is
resolved against the process's current working directory. -/
def abspath (cwd : List String) (p : PyPath) : List String :=
  if p.absolute then p.components else cwd ++ p.components

/-- os.path.dirname on a resolved path: drops the final component. -/
def dirname (p : List String) : List String :=
  p.dropLast

/-- The physical directory containing the entry-point file: the dirname of
where the file reference resolves, given the working directory the process
was launched from (a relative reference resolves against that directory). -/
def entryPointDir (launchCwd : List String) (file : PyPath) : List String :=
  dirname (abspath launchCwd file)

/-- PORT (src/server.py line 18): a hardcoded literal. -/
def PORT : Nat := 8000

/-- The address passed to socketserver.TCPServer at src/server.py line 23:
the empty host (all local interfaces) at PORT. -/
def server_address : String × Nat := ("", PORT)

/-- The listening address as a function of the process's command-line
arguments and environment.  The source consults neither sys.argv nor
os.environ, so the resolved address is the hardcoded one for any input. -/
def resolvedServerAddress (_argv : List String)
    (_environ : List (String × String)) : String × Nat :=
  server_address

/-- The three status lines printed at src/server.py lines 24-26. -/
def startupOutput : List String :=
  ["🚀 Servidor iniciado en puerto " ++ toString PORT,
   "📱 Accede a: http://localhost:" ++ toString PORT,
   "🔄 Headers anti-caché activados para desarrollo"]

/-- Whether one character list starts with another. -/
def hasPrefixChars : List Char → List Char → Bool
  | [], _ => true
  | _ :: _, [] => false
  | p :: ps, c :: cs => p == c && hasPrefixChars ps cs

/-- Whether a character list occurs contiguously inside another. -/
def hasSubSeq (pat : List Char) : List Char → Bool
  | [] => hasPrefixChars pat []
  | c :: cs => hasPrefixChars pat (c :: cs) || hasSubSeq pat cs

/-- Whether a printed line announces the port: the port's decimal digits
occur in the line. -/
def mentionsPort (s : String) : Bool :=
  hasSubSeq (toString PORT).data s.data

/-- The ways binding the listening socket can fail at startup. -/
inductive BindError
  | portInUse
  | permissionDenied
deriving DecidableEq, Repr

/-- Exceptions that can escape the module top-level: the source installs no
exception handler, so each of these is a fatal, unhandled diagnostic. -/
inductive StartupError
  | chdirFailed
  | bindFailed (e : BindError)
deriving DecidableEq, Repr

/-- The observable effects of the module top-level, in program order. -/
inductive Effect
  | chdirCall (dir : List String)
  | bindAttempt (host : String) (port : Nat)
  | printLine (line : String)
  | serveForever
deriving DecidableEq, Repr

/-- The environment a run starts in: launch working directory, the
reference to the program's own file, and whether the chdir or the bind
fails in this run. -/
structure Env where
  launchCwd : List String
  file : PyPath
  chdirFails : Bool
  bindError : Option BindError
deriving Repr

/-- The outcome of running the module top-level: the effect trace, whether
an unhandled exception escaped, and the final working directory. -/
structure RunResult where
  trace : List Effect
  outcome : Except StartupError Unit
  finalCwd : List String
deriving Repr

/-- The module top-level of src/server.py (lines 18-27): chdir to the
directory of the program's own file, create the TCP server (binding the
socket), print the three status lines, then serve forever.  There is no
try/except, so a failing step raises, executes nothing after it, and the
exception escapes the process. -/
def runMain (env : Env) : RunResult :=
  let dir := entryPointDir env.launchCwd env.file
  if env.chdirFails then
    { trace := [Effect.chdirCall dir]
      outcome := Except.error StartupError.chdirFailed
      finalCwd := env.launchCwd }
  else
    match env.bindError with
    | some e =>
        { trace := [Effect.chdirCall dir, Effect.bindAttempt "" PORT]
          outcome := Except.error (StartupError.bindFailed e)
          finalCwd := dir }
    | none =>
        { trace := [Effect.chdirCall dir, Effect.bindAttempt "" PORT]
                     ++ startupOutput.map Effect.printLine
                     ++ [Effect.serveForever]
          outcome := Except.ok ()
          finalCwd := dir }

/-- Recognizes a bind attempt in an effect trace. -/
def isBindAttempt : Effect → Bool
  | Effect.bindAttempt _ _ => true
  | _ => false

/-- Extracts the line of a print effect. -/
def printOf : Effect → Option String
  | Effect.printLine s => some s
  | _ => none

/-- The lines a run wrote to standard output, in order. -/
def printedLines (r : RunResult) : List String :=
  r.trace.filterMap printOf

/-- The state of serve_forever's accept loop: whether a shutdown was
requested (only a shutdown call from another thread can set it, and this
program never makes one) and how many requests have been served. -/
structure LoopState where
  shutdownRequested : Bool
  requestsServed : Nat
deriving DecidableEq, Repr

/-- One iteration of serve_forever's while loop: handle one request.  The
shutdown flag is untouched because nothing in this program calls shutdown. -/
def serveStep (s : LoopState) : LoopState :=
  { s with requestsServed := s.requestsServed + 1 }

/-- The loop state after n iterations. -/
def serveIter (s : LoopState) : Nat → LoopState
  | 0 => s
  | Nat.succ n => serveIter (serveStep s) n

/-- The loop state on entry to serve_forever. -/
def initialLoopState : LoopState :=
  { shutdownRequested := false, requestsServed := 0 }

/-- serve_forever returns normally only once a shutdown has been requested. -/
def loopReturned (s : LoopState) : Bool :=
  s.shutdownRequested

/-- Helper invariant of the serve loop: iterating never touches the shutdown
flag and serves exactly one request per iteration. -/
theorem serveIter_invariant (s : LoopState) (n : Nat) :
    (serveIter s n).shutdownRequested = s.shutdownRequested ∧
    (serveIter s n).requestsServed = s.requestsServed + n := by
  induction n generalizing s with
  | zero => simp [serveIter]
  | succ n ih =>
      have h := ih (serveStep s)
      refine ⟨?_, ?_⟩
      · simpa [serveIter, serveStep] using h.1
      · have h2 := h.2
        simp only [serveIter, serveStep] at h2 ⊢
        omega

/-- C1: for every response the server finalizes — whatever header buffer the
base handler produced, for any request path, method, or status — the
finalized header block contains Cache-Control, Pragma, and Expires with
exactly the specified literal values. -/
theorem anti_cache_headers_always_present (buffer : List Header) :
    (⟨"Cache-Control", "no-cache, no-store, must-revalidate"⟩ : Header)
      ∈ end_headers buffer ∧
    (⟨"Pragma", "no-cache"⟩ : Header) ∈ end_headers buffer ∧
    (⟨"Expires", "0"⟩ : Header) ∈ end_headers buffer := by
  refine ⟨?_, ?_, ?_⟩ <;> simp [end_headers, send_header]

/-- C2: a request whose path has no corresponding file yields status 404,
and the finalized header block still carries the three anti-cache headers,
because injection happens at header finalization, not in success-path
logic. -/
theorem missing_path_404_has_anti_cache (fs : FileSystem) (path : String)
    (h : fs.lookup path = none) :
    (do_GET fs path).status = 404 ∧
    (⟨"Cache-Control", "no-cache, no-store, must-revalidate"⟩ : Header)
      ∈ (do_GET fs path).headerBlock ∧
    (⟨"Pragma", "no-cache"⟩ : Header) ∈ (do_GET fs path).headerBlock ∧
    (⟨"Expires", "0"⟩ : Header) ∈ (do_GET fs path).headerBlock := by
  refine ⟨?_, ?_, ?_, ?_⟩ <;>
    simp [do_GET, h, end_headers, send_header, baseErrorHeaders]

/-- Witness for C2 at a concrete empty filesystem and path. -/
theorem missing_path_404_has_anti_cache_witness :
    ([] : FileSystem).lookup "/nonexistent.html" = none ∧
    (do_GET [] "/nonexistent.html").status = 404 :=
  ⟨rfl, (missing_path_404_has_anti_cache [] "/nonexistent.html" rfl).1⟩

/-- C3: the injected anti-cache headers are appended after whatever the base
handler buffered: the finalized block is exactly the base buffer followed by
the three anti-cache headers, so every header line the base handler emitted
is still present, unmodified and in its original order. -/
theorem base_headers_preserved (buffer : List Header) :
    end_headers buffer = buffer ++ antiCacheHeaders ∧
    ∀ h ∈ buffer, h ∈ end_headers buffer := by
  have e : end_headers buffer = buffer ++ antiCacheHeaders := by
    simp [end_headers, send_header, antiCacheHeaders]
  exact ⟨e, fun h hh => e ▸ List.mem_append_left _ hh⟩

/-- Witness for C3 at a concrete one-line base buffer. -/
theorem base_headers_preserved_witness :
    end_headers [⟨"Content-Length", "5"⟩]
        = [⟨"Content-Length", "5"⟩] ++ antiCacheHeaders ∧
    (⟨"Content-Length", "5"⟩ : Header) ∈ end_headers [⟨"Content-Length", "5"⟩] :=
  ⟨(base_headers_preserved [⟨"Content-Length", "5"⟩]).1,
   (base_headers_preserved [⟨"Content-Length", "5"⟩]).2 _ (by simp)⟩

/-- C4: after a startup whose chdir succeeds, the process's working
directory is the directory containing the entry-point file; and since the
interpreter resolves the file reference to an absolute location, the result
does not depend on the launch directory (stated for an absolute file
reference, where launch irrelevance is literal). -/
theorem cwd_is_entry_point_dir (env : Env) (h : env.chdirFails = false) :
    (runMain env).finalCwd = entryPointDir env.launchCwd env.file ∧
    (env.file.absolute = true →
      ∀ otherCwd : List String,
        entryPointDir otherCwd env.file = entryPointDir env.launchCwd env.file) := by
  constructor
  · cases hb : env.bindError <;> simp [runMain, h, hb]
  · intro habs otherCwd
    simp [entryPointDir, abspath, habs]

/-- Witness for C4 at a concrete environment. -/
theorem cwd_is_entry_point_dir_witness :
    (runMain { launchCwd := ["home", "user"],
               file := { absolute := true, components := ["srv", "server.py"] },
               chdirFails := false, bindError := none }).finalCwd
      = entryPointDir ["home", "user"]
          { absolute := true, components := ["srv", "server.py"] } :=
  (cwd_is_entry_point_dir
    { launchCwd := ["home", "user"],
      file := { absolute := true, components := ["srv", "server.py"] },
      chdirFails := false, bindError := none } rfl).1

/-- C5: the listening socket address is all local interfaces (empty host) at
the hardcoded port 8000, and it is the same for every command line and
environment, since the source consults neither. -/
theorem port_hardcoded_8000 (argv : List String)
    (environ : List (String × String)) :
    resolvedServerAddress argv environ = ("", 8000) ∧ PORT = 8000 :=
  ⟨rfl, rfl⟩

/-- C6: every startup failure — chdir failure, port in use, or permission
denied on bind — ends the run with an unhandled exception (a runtime-level
diagnostic), with at most one bind attempt (no retry) and without ever
reaching the serve loop (no recovery path). -/
theorem startup_failure_fatal (env : Env)
    (h : env.chdirFails = true ∨ env.bindError ≠ none) :
    (∃ e, (runMain env).outcome = Except.error e) ∧
    (runMain env).trace.countP isBindAttempt ≤ 1 ∧
    Effect.serveForever ∉ (runMain env).trace := by
  rcases h with h | h
  · refine ⟨⟨StartupError.chdirFailed, ?_⟩, ?_, ?_⟩ <;>
      simp [runMain, h, isBindAttempt]
  · cases hb : env.bindError with
    | none => exact absurd hb h
    | some e =>
        cases hc : env.chdirFails with
        | true =>
            refine ⟨⟨StartupError.chdirFailed, ?_⟩, ?_, ?_⟩ <;>
              simp [runMain, hc, isBindAttempt]
        | false =>
            refine ⟨⟨StartupError.bindFailed e, ?_⟩, ?_, ?_⟩ <;>
              simp [runMain, hc, hb, isBindAttempt, List.countP_cons]

/-- Witness for C6: a run where the port is already in use. -/
theorem startup_failure_fatal_witness :
    ∃ e, (runMain { launchCwd := [], file := { absolute := true, components := ["srv", "server.py"] },
                    chdirFails := false,
                    bindError := some BindError.portInUse }).outcome
           = Except.error e :=
  (startup_failure_fatal
    { launchCwd := [], file := { absolute := true, components := ["srv", "server.py"] },
      chdirFails := false, bindError := some BindError.portInUse }
    (Or.inr (by simp))).1

/-- C7: the accept loop never terminates of its own accord: after any number
of iterations starting from the entry state, serve_forever has not returned
(the shutdown flag this program never sets is still clear), while requests
keep being served one per iteration. -/
theorem serve_loop_never_returns (n : Nat) :
    loopReturned (serveIter initialLoopState n) = false ∧
    (serveIter initialLoopState n).requestsServed = n := by
  have h := serveIter_invariant initialLoopState n
  exact ⟨by simpa [loopReturned, initialLoopState] using h.1,
         by simpa [initialLoopState] using h.2⟩

/-- C8: a GET for an existing regular file under the root returns status 200
with a body equal to that file's bytes, unmodified. -/
theorem existing_file_200_bytes (fs : FileSystem) (path : String)
    (bytes : Bytes) (h : fs.lookup path = some bytes) :
    (do_GET fs path).status = 200 ∧ (do_GET fs path).body = bytes := by
  constructor <;> simp [do_GET, h]

/-- Witness for C8 at a concrete one-file filesystem. -/
theorem existing_file_200_bytes_witness :
    ([("/index.html", [104, 105])] : FileSystem).lookup "/index.html"
        = some [104, 105] ∧
    (do_GET [("/index.html", [104, 105])] "/index.html").status = 200 ∧
    (do_GET [("/index.html", [104, 105])] "/index.html").body = [104, 105] := by
  refine ⟨by rfl, existing_file_200_bytes [("/index.html", [104, 105])]
    "/index.html" [104, 105] (by rfl)⟩

/-- C9: a successful startup prints exactly the three fixed status lines to
standard output and nothing else, and the first two of them announce the
port. -/
theorem startup_prints_three_lines (env : Env)
    (h1 : env.chdirFails = false) (h2 : env.bindError = none) :
    printedLines (runMain env) = startupOutput ∧
    startupOutput.length = 3 ∧
    mentionsPort (startupOutput.getD 0 "") = true ∧
    mentionsPort (startupOutput.getD 1 "") = true := by
  refine ⟨?_, rfl, by decide, by decide⟩
  simp [printedLines, runMain, h1, h2, printOf, startupOutput]

/-- Witness for C9 at a concrete successful environment. -/
theorem startup_prints_three_lines_witness :
    printedLines (runMain { launchCwd := [],
                            file := { absolute := true, components := ["srv", "server.py"] },
                            chdirFails := false, bindError := none })
      = startupOutput :=
  (startup_prints_three_lines
    { launchCwd := [], file := { absolute := true, components := ["srv", "server.py"] },
      chdirFails := false, bindError := none } rfl rfl).1

/-- C10: the working-directory change is executed before the bind: when the
bind fails (chdir having succeeded), the run dies with the bind error while
its working directory has already been changed to the program's directory,
and the trace shows the chdir strictly before the bind attempt. -/
theorem chdir_precedes_bind (env : Env) (e : BindError)
    (h1 : env.chdirFails = false) (h2 : env.bindError = some e) :
    (runMain env).outcome = Except.error (StartupError.bindFailed e) ∧
    (runMain env).finalCwd = entryPointDir env.launchCwd env.file ∧
    (runMain env).trace
      = [Effect.chdirCall (entryPointDir env.launchCwd env.file),
         Effect.bindAttempt "" PORT] := by
  refine ⟨?_, ?_, ?_⟩ <;> simp [runMain, h1, h2]

/-- Witness for C10: a concrete run whose bind is denied. -/
theorem chdir_precedes_bind_witness :
    (runMain { launchCwd := ["home"],
               file := { absolute := true, components := ["srv", "server.py"] },
               chdirFails := false,
               bindError := some BindError.permissionDenied }).finalCwd
      = entryPointDir ["home"] { absolute := true, components := ["srv", "server.py"] } :=
  (chdir_precedes_bind
    { launchCwd := ["home"], file := { absolute := true, components := ["srv", "server.py"] },
      chdirFails := false, bindError := some BindError.permissionDenied }
    BindError.permissionDenied rfl rfl).2.1

end Server
